import Mathlib

/-!
Verification of `enggdev.py`, a bridge that polls two sensor devices behind an
authenticated web session, extracts one scalar reading per device from a JSON
telemetry payload, and republishes both readings to an MQTT broker on a fixed
interval.

The development is a shallow embedding: the pure logic of the Python source is
translated into executable Lean definitions, with I/O outcomes (HTTP transport,
broker acknowledgement, environment variables) passed in explicitly as oracle
values, and Python exceptions modelled by an explicit `PyResult` type.
-/

namespace EnggDev

/-- Python exceptions made explicit: a computation either returns a value or
raises an exception carrying a message string. -/
inductive PyResult (α : Type) where
  | ok (a : α) : PyResult α
  | exn (msg : String) : PyResult α
  deriving DecidableEq, Repr

/-- An authenticated HTTP session handle (`requests.Session()`), modelled as an
opaque identifier. The Python variable `session` can also hold `None`, which is
modelled as `Option Session` at use sites. -/
abbrev Session := Nat

/-- Python string truthiness of an optional string value: `None` and the empty
string are falsy, every non-empty string (including `"0"`) is truthy. -/
def pyTruthy : Option String → Bool
  | Option.none => false
  | Option.some s => !s.isEmpty

/-- Does the character list start with the given character list? Helper for the
substring test behind Python's `in` operator on strings. -/
def startMatch : List Char → List Char → Bool
  | [], _ => true
  | _ :: _, [] => false
  | c :: cs, d :: ds => c == d && startMatch cs ds

/-- Does the needle occur as a contiguous run anywhere in the haystack?
Helper for the substring test behind Python's `in` operator on strings. -/
def subSearch (needle : List Char) : List Char → Bool
  | [] => startMatch needle []
  | c :: cs => startMatch needle (c :: cs) || subSearch needle cs

/-- Python's `needle in hay` on strings: substring containment. -/
def strContains (hay needle : String) : Bool :=
  subSearch needle.data hay.data

/-- The keyword heuristic of `scrape_device_data` (lines 163-164):
`param.lower()` contains `"spm"`, `"pm"`, or `"particulate"`. Lowercasing is
done characterwise on the underlying character list (ASCII case folding, which
agrees with Python `str.lower` on the ASCII parameter names involved). -/
def keywordMatch (param : String) : Bool :=
  let pl := param.data.map Char.toLower
  subSearch "spm".data pl || subSearch "pm".data pl || subSearch "particulate".data pl

/-- The parsed telemetry JSON once the `para`/`last`/`unit` keys are all present
(the membership check at line 154): three parallel sequences. -/
structure TelemetryPayload where
  para : List String
  last : List String
  unit : List String
  deriving DecidableEq, Repr

/-- Python list indexing `l[i]` for a natural index: the value when in range,
an `IndexError` exception otherwise. -/
def pyIndex (l : List String) (i : Nat) : Except String String :=
  match l.get? i with
  | Option.some v => Except.ok v
  | Option.none => Except.error "IndexError: list index out of range"

/-- The first `for` loop of the extraction heuristic (lines 162-167): walk
`para` with index `i` starting at `k`; on the first keyword match return
`last[i]` (which may raise `IndexError`); `none` when the loop completes
without returning. -/
def keywordLoop (lastv : List String) : Nat → List String → Option (Except String String)
  | _, [] => Option.none
  | i, p :: ps =>
    if keywordMatch p then Option.some (pyIndex lastv i)
    else keywordLoop lastv (i + 1) ps

/-- The fallback `for` loop of the extraction heuristic (lines 171-175): walk
`para` with index `i` starting at `k`; at the first index `i ≥ 2` return
`last[i]`; when the loop completes without returning, control falls through to
`return None` at line 184, modelled as `Except.ok Option.none`. -/
def fallbackLoop (lastv : List String) : Nat → List String → Except String (Option String)
  | _, [] => Except.ok Option.none
  | i, _ :: ps =>
    if 2 ≤ i then (pyIndex lastv i).map Option.some
    else fallbackLoop lastv (i + 1) ps

/-- The extraction heuristic of `scrape_device_data` (lines 154-184) on a
payload that has the three arrays: the keyword loop first; if it returns a
value (or raises), that is the result; otherwise the index-≥-2 fallback loop;
`Except.ok Option.none` is Python's `return None` ("no reading found"). -/
def extract_reading (d : TelemetryPayload) : Except String (Option String) :=
  match keywordLoop d.last 0 d.para with
  | Option.some r => r.map Option.some
  | Option.none => fallbackLoop d.last 0 d.para

/-- The result of one HTTP POST as seen by the code: either a
`requests.exceptions.RequestException` was raised (by `session.post` or by
`raise_for_status`, covering transport failures and HTTP error statuses), or
the transport succeeded and the final resolved URL after redirects is known. -/
inductive TransportResult where
  | exn (msg : String) : TransportResult
  | ok (finalUrl : String) : TransportResult
  deriving DecidableEq, Repr

/-- `login_to_site` (lines 78-108) given the transport outcome of the login
POST. `fresh` stands for the `requests.Session()` created in the call. Returns
the Python return value together with the failure-path log line: on a
`RequestException` it returns `None`; on transport success it returns `None`
when the final URL does not contain `"home.php"` (line 99), and the fresh
session otherwise. -/
def login_to_site (fresh : Session) (t : TransportResult) : Option Session × String :=
  match t with
  | TransportResult.exn e => (Option.none, "Login request failed: " ++ e)
  | TransportResult.ok url =>
    if strContains url "home.php" then (Option.some fresh, "Login Successful.")
    else (Option.none, "Login Failed. Check credentials or site status.")

/-- The MQTT message built by `publish_to_mqtt` (line 194):
`f"SPM_2:{mill_2_value},SPM_1:{mill_1_value}"`. -/
def publish_message (mill_1_value mill_2_value : String) : String :=
  "SPM_2:" ++ mill_2_value ++ ",SPM_1:" ++ mill_1_value

/-- Observable outcome of one `run_cycle` call: the returned success flag,
whether `publish_to_mqtt` was called, the message handed to the broker if so,
and the broker acknowledgement if so. `publish_to_mqtt` catches every
exception internally (line 223) and its outcome is only printed, so the
acknowledgement is recorded but never consulted by `run_cycle`. -/
structure CycleTrace where
  success : Bool
  publishAttempted : Bool
  publishedMessage : Option String
  publishConfirmed : Option Bool
  deriving DecidableEq, Repr

/-- `run_cycle` (lines 227-245) given the session variable, the two values
returned by the `scrape_device_data` calls (device MILL_2 is read first,
MILL_1 second), and the broker acknowledgement oracle. When `session` is
`None`, `scrape_device_data` evaluates `session.post` (line 132), raising an
`AttributeError` that no handler in `scrape_device_data` or `run_cycle`
catches. Otherwise the Python gate `if val_mill_1 and val_mill_2` (line 236)
holds exactly when both optionals carry non-empty strings. -/
def run_cycle (session : Option Session) (val_mill_2 val_mill_1 : Option String)
    (brokerOk : Bool) : PyResult CycleTrace :=
  match session with
  | Option.none =>
      PyResult.exn "AttributeError: NoneType object has no attribute post"
  | Option.some _ =>
    if pyTruthy val_mill_1 && pyTruthy val_mill_2 then
      PyResult.ok (CycleTrace.mk true true
        (Option.some (publish_message (val_mill_1.getD "") (val_mill_2.getD "")))
        (Option.some brokerOk))
    else
      PyResult.ok (CycleTrace.mk false false Option.none Option.none)

/-- The success flag reported by a `run_cycle` call, when it returned at all. -/
def cycleSuccess : PyResult CycleTrace → Option Bool
  | PyResult.ok tr => Option.some tr.success
  | PyResult.exn _ => Option.none

/-- State carried across iterations of the `while True` loop in `main`
(lines 269-286): the `session` variable (which can be `None` after a failed
re-login) and the cycle counter. -/
structure LoopState where
  session : Option Session
  cycle_count : Nat
  deriving DecidableEq, Repr

/-- Observable events of one loop iteration, in program order. -/
inductive LoopEvent where
  | cycleRun (success : Bool) : LoopEvent
  | reloginAttempt (gotSession : Bool) : LoopEvent
  | sleep : LoopEvent
  deriving DecidableEq, Repr

/-- One iteration of the `while True` body in `main` (lines 269-286):
increment the counter, run the cycle; on cycle failure assign
`session = login_to_site(config)` (line 279) — the re-login result replaces
the session variable even when it is `None`; then sleep. An exception raised
by `run_cycle` propagates out of the loop body (it is met only by the
`except Exception` handler at line 296, which exits the process with status
1), modelled as `PyResult.exn`. -/
def loop_iter (st : LoopState) (scrape_mill_2 scrape_mill_1 : Option String)
    (brokerOk : Bool) (fresh : Session) (reloginT : TransportResult) :
    PyResult (LoopState × List LoopEvent) :=
  let count := st.cycle_count + 1
  match run_cycle st.session scrape_mill_2 scrape_mill_1 brokerOk with
  | PyResult.exn m => PyResult.exn m
  | PyResult.ok tr =>
    if tr.success then
      PyResult.ok (LoopState.mk st.session count,
        [LoopEvent.cycleRun true, LoopEvent.sleep])
    else
      PyResult.ok (LoopState.mk (login_to_site fresh reloginT).1 count,
        [LoopEvent.cycleRun false,
         LoopEvent.reloginAttempt (login_to_site fresh reloginT).1.isSome,
         LoopEvent.sleep])

/-- The thirteen entries of the `config_str` dict in `load_config`
(lines 37-51): dict key paired with the environment variable it reads. -/
def env_keys : List (String × String) :=
  [("web_user", "WEB_USERNAME"), ("web_pass", "WEB_PASSWORD"),
   ("mqtt_user", "MQTT_USER"), ("mqtt_pass", "MQTT_PASS"),
   ("login_url", "LOGIN_URL"), ("home_url", "HOME_URL"),
   ("aaq_data_url", "AAQ_DATA_URL"), ("mqtt_host", "MQTT_HOST"),
   ("mqtt_port_str", "MQTT_PORT"), ("mqtt_topic", "MQTT_TOPIC"),
   ("device_mill_1", "DEVICE_MILL_1"), ("device_mill_2", "DEVICE_MILL_2"),
   ("loop_interval_str", "LOOP_INTERVAL")]

/-- The `config_str` dict as built from an environment (`os.getenv` returns
`None` for unset variables). -/
def config_str (env : String → Option String) : List (String × Option String) :=
  env_keys.map (fun kv => (kv.1, env kv.2))

/-- The missing-value gate of `load_config` (lines 53-57): when
`not all(config_str.values())` — that is, when some value is falsy (`None` or
the empty string) — print the keys whose value `is None` and call
`sys.exit(1)`. Returns `some (exitCode, missing_keys)` when the gate exits the
process and `none` when the check passes. -/
def load_config_gate (env : String → Option String) : Option (Nat × List String) :=
  let cs := config_str env
  if cs.all (fun kv => pyTruthy kv.2) then Option.none
  else Option.some (1, (cs.filter (fun kv => kv.2.isNone)).map Prod.fst)

lemma keywordLoop_of_no_match (lastv : List String) (ps : List String)
    (h : ps.all (fun p => !keywordMatch p) = true) (k : Nat) :
    keywordLoop lastv k ps = Option.none := by
  induction ps generalizing k with
  | nil => rfl
  | cons a as ih =>
    simp only [List.all_cons, Bool.and_eq_true, Bool.not_eq_true'] at h
    simp only [keywordLoop, h.1, if_false]
    exact ih h.2 (k + 1)

lemma keywordLoop_first_match (lastv : List String) (ps : List String) (i : Nat)
    (p : String) (hp : ps.get? i = Option.some p) (hm : keywordMatch p = true)
    (hfirst : (ps.take i).all (fun q => !keywordMatch q) = true) (k : Nat) :
    keywordLoop lastv k ps = Option.some (pyIndex lastv (k + i)) := by
  induction ps generalizing k i with
  | nil => simp [List.get?] at hp
  | cons a as ih =>
    cases i with
    | zero =>
      simp only [List.get?, Option.some.injEq] at hp
      subst hp
      simp [keywordLoop, hm]
    | succ j =>
      simp only [List.take_succ_cons, List.all_cons, Bool.and_eq_true,
        Bool.not_eq_true'] at hfirst
      simp only [keywordLoop, hfirst.1, if_false]
      have hrec := ih j hp hfirst.2 (k + 1)
      have hidx : k + 1 + j = k + (j + 1) := by omega
      rw [hrec, hidx]
      simp

lemma fallbackLoop_of_short (lastv : List String) (ps : List String) (k : Nat)
    (h : k + ps.length ≤ 2) : fallbackLoop lastv k ps = Except.ok Option.none := by
  induction ps generalizing k with
  | nil => rfl
  | cons a as ih =>
    simp only [List.length_cons] at h
    have hk : ¬ 2 ≤ k := by omega
    simp only [fallbackLoop, hk, if_false]
    exact ih (k + 1) (by omega)

lemma fallbackLoop_of_three (lastv : List String) (a b c : String)
    (rest : List String) :
    fallbackLoop lastv 0 (a :: b :: c :: rest) = (pyIndex lastv 2).map Option.some := by
  simp [fallbackLoop]

lemma fallbackLoop_of_long (lastv : List String) (ps : List String)
    (h : 3 ≤ ps.length) :
    fallbackLoop lastv 0 ps = (pyIndex lastv 2).map Option.some := by
  cases ps with
  | nil => simp at h
  | cons a t1 =>
    cases t1 with
    | nil => simp at h
    | cons b t2 =>
      cases t2 with
      | nil => simp at h
      | cons c rest => exact fallbackLoop_of_three lastv a b c rest

/-- Claim C3: on a payload whose three arrays are parallel, if index `i` holds
the first parameter name matching the keyword heuristic, extraction returns
the `last` entry at index `i`, regardless of any later matches (which are
unconstrained here). -/
theorem extract_reading_first_match (d : TelemetryPayload)
    (hpl : d.para.length = d.last.length) (hpu : d.para.length = d.unit.length)
    (i : Nat) (p : String)
    (hp : d.para.get? i = Option.some p) (hm : keywordMatch p = true)
    (hfirst : (d.para.take i).all (fun q => !keywordMatch q) = true) :
    ∃ v, d.last.get? i = Option.some v ∧
      extract_reading d = Except.ok (Option.some v) := by
  have hi : i < d.last.length := by
    have := (List.get?_eq_some.mp hp).1
    omega
  obtain ⟨v, hv⟩ : ∃ v, d.last.get? i = Option.some v :=
    ⟨d.last.get ⟨i, hi⟩, List.get?_eq_get hi⟩
  refine ⟨v, hv, ?_⟩
  unfold extract_reading
  rw [keywordLoop_first_match d.last d.para i p hp hm hfirst 0]
  simp only [Nat.zero_add, pyIndex, hv, Except.map]

/-- Claim C4: on a payload whose three arrays are parallel, with no parameter
name matching the keyword heuristic and at least 3 parameters, extraction
returns the `last` entry at index 2. -/
theorem extract_reading_fallback_index (d : TelemetryPayload)
    (hpl : d.para.length = d.last.length) (hpu : d.para.length = d.unit.length)
    (hnom : d.para.all (fun p => !keywordMatch p) = true)
    (hlen : 3 ≤ d.para.length) :
    ∃ v, d.last.get? 2 = Option.some v ∧
      extract_reading d = Except.ok (Option.some v) := by
  have hi : 2 < d.last.length := by omega
  obtain ⟨v, hv⟩ : ∃ v, d.last.get? 2 = Option.some v :=
    ⟨d.last.get ⟨2, hi⟩, List.get?_eq_get hi⟩
  refine ⟨v, hv, ?_⟩
  unfold extract_reading
  rw [keywordLoop_of_no_match d.last d.para hnom 0]
  rw [fallbackLoop_of_long d.last d.para hlen]
  simp only [pyIndex, hv, Except.map]

/-- Claim C5: on a payload with no keyword match and fewer than 3 parameters,
extraction returns Python `None` ("no reading found") and raises no
exception. -/
theorem extract_reading_short_no_crash (d : TelemetryPayload)
    (hnom : d.para.all (fun p => !keywordMatch p) = true)
    (hshort : d.para.length < 3) :
    extract_reading d = Except.ok Option.none := by
  unfold extract_reading
  rw [keywordLoop_of_no_match d.last d.para hnom 0]
  exact fallbackLoop_of_short d.last d.para 0 (by omega)

/-- Claim C3 witness: the spec's example payload, whose first (and only)
keyword match is `"SPM2.5"` at index 2, extracts `"112"`. -/
theorem extract_reading_first_match_witness :
    ∃ v, (TelemetryPayload.mk ["Temp", "Hum", "SPM2.5"] ["23", "55", "112"]
        ["C", "%", "ug/m3"]).last.get? 2 = Option.some v ∧
      extract_reading (TelemetryPayload.mk ["Temp", "Hum", "SPM2.5"]
        ["23", "55", "112"] ["C", "%", "ug/m3"]) = Except.ok (Option.some v) :=
  extract_reading_first_match
    (TelemetryPayload.mk ["Temp", "Hum", "SPM2.5"] ["23", "55", "112"]
      ["C", "%", "ug/m3"])
    (by decide) (by decide) 2 "SPM2.5" (by decide) (by decide) (by decide)

/-- Claim C4 witness: the spec's fallback example payload, with no keyword
match and three parameters, extracts the index-2 value `"410"`. -/
theorem extract_reading_fallback_index_witness :
    ∃ v, (TelemetryPayload.mk ["Temp", "Hum", "CO2"] ["23", "55", "410"]
        ["C", "%", "ppm2"]).last.get? 2 = Option.some v ∧
      extract_reading (TelemetryPayload.mk ["Temp", "Hum", "CO2"]
        ["23", "55", "410"] ["C", "%", "ppm2"]) = Except.ok (Option.some v) :=
  extract_reading_fallback_index
    (TelemetryPayload.mk ["Temp", "Hum", "CO2"] ["23", "55", "410"]
      ["C", "%", "ppm2"])
    (by decide) (by decide) (by decide) (by decide)

/-- Claim C5 witness: a two-parameter payload with no keyword match yields
`None` without an exception. -/
theorem extract_reading_short_no_crash_witness :
    extract_reading (TelemetryPayload.mk ["Temp", "Hum"] ["23", "55"] ["C", "%"])
      = Except.ok Option.none :=
  extract_reading_short_no_crash
    (TelemetryPayload.mk ["Temp", "Hum"] ["23", "55"] ["C", "%"])
    (by decide) (by decide)

/-- Claim C7: on a transport-successful login POST, the attempt fails (returns
no session) exactly when the final URL lacks the `"home.php"` marker, and
returns the fresh session exactly when the marker is present. -/
theorem login_url_marker_decides (fresh : Session) (url : String) :
    ((login_to_site fresh (TransportResult.ok url)).1 = Option.none
        ↔ strContains url "home.php" = false) ∧
    ((login_to_site fresh (TransportResult.ok url)).1 = Option.some fresh
        ↔ strContains url "home.php" = true) := by
  cases h : strContains url "home.php" <;> simp [login_to_site, h]

/-- Claim C6 counterexample: a transport failure and an authentication
rejection (the spec's own `login.php?error=1` landing page) produce the very
same return value `None`, so the caller cannot tell the two failure causes
apart from what `login_to_site` returns. -/
theorem login_failure_indistinct :
    (login_to_site 0 (TransportResult.exn "ConnectionError")).1 = Option.none ∧
    (login_to_site 0
      (TransportResult.ok "https://cloud.enggenv.com/login.php?error=1")).1
        = Option.none ∧
    (login_to_site 0 (TransportResult.exn "ConnectionError")).1
      = (login_to_site 0
          (TransportResult.ok "https://cloud.enggenv.com/login.php?error=1")).1 := by
  decide

/-- Claim C6 amended: `login_to_site` returns `None` on a transport failure
and also on an authentication rejection — the two failure causes are
distinguished only in the printed log line, never in the return value. -/
theorem login_failure_both_none (fresh : Session) (e url : String)
    (h : strContains url "home.php" = false) :
    (login_to_site fresh (TransportResult.exn e)).1 = Option.none ∧
    (login_to_site fresh (TransportResult.ok url)).1 = Option.none := by
  simp [login_to_site, h]

/-- Claim C6 amended witness at concrete failure inputs. -/
theorem login_failure_both_none_witness :
    (login_to_site 0 (TransportResult.exn "Connection refused")).1
        = Option.none ∧
    (login_to_site 0 (TransportResult.ok "https://cloud.enggenv.com/login.php")).1
        = Option.none :=
  login_failure_both_none 0 "Connection refused"
    "https://cloud.enggenv.com/login.php" (by decide)

/-- Claim C2: `run_cycle` reports success exactly when both scraped readings
are truthy (present and non-empty), and the reported flag is independent of
the broker acknowledgement outcome. -/
theorem run_cycle_success_policy (s : Session) (v2 v1 : Option String)
    (b b' : Bool) :
    cycleSuccess (run_cycle (Option.some s) v2 v1 b)
        = Option.some (pyTruthy v1 && pyTruthy v2) ∧
    cycleSuccess (run_cycle (Option.some s) v2 v1 b)
        = cycleSuccess (run_cycle (Option.some s) v2 v1 b') := by
  unfold run_cycle
  by_cases h : pyTruthy v1 && pyTruthy v2 <;> simp [h, cycleSuccess]

/-- Claim C8: a successful cycle with device-1 reading `v1` and device-2
reading `v2` publishes exactly `"SPM_2:" ++ v2 ++ ",SPM_1:" ++ v1`. -/
theorem run_cycle_publish_format (s : Session) (v1 v2 : String) (b : Bool)
    (h1 : pyTruthy (Option.some v1) = true)
    (h2 : pyTruthy (Option.some v2) = true) :
    run_cycle (Option.some s) (Option.some v2) (Option.some v1) b
      = PyResult.ok (CycleTrace.mk true true
          (Option.some ("SPM_2:" ++ v2 ++ ",SPM_1:" ++ v1)) (Option.some b)) := by
  simp [run_cycle, h1, h2, publish_message]

/-- Claim C8 witness: readings `"112"` (device 1) and `"85"` (device 2) yield
the exact message body `"SPM_2:85,SPM_1:112"`. -/
theorem run_cycle_publish_format_witness :
    run_cycle (Option.some 0) (Option.some "85") (Option.some "112") true
      = PyResult.ok (CycleTrace.mk true true
          (Option.some "SPM_2:85,SPM_1:112") (Option.some true)) :=
  (run_cycle_publish_format 0 "112" "85" true (by decide) (by decide)).trans
    (by decide)

/-- Claim C9: when at least one device read yields no truthy reading,
`run_cycle` returns failure, no publish is attempted and no message is handed
to the broker. -/
theorem run_cycle_failure_no_publish (s : Session) (v2 v1 : Option String)
    (b : Bool) (h : pyTruthy v1 = false ∨ pyTruthy v2 = false) :
    run_cycle (Option.some s) v2 v1 b
      = PyResult.ok (CycleTrace.mk false false Option.none Option.none) := by
  unfold run_cycle
  rcases h with h | h <;> simp [h]

/-- Claim C9 witness: device MILL_2 read fails while MILL_1 succeeds; the
cycle fails and the broker is not contacted. -/
theorem run_cycle_failure_no_publish_witness :
    run_cycle (Option.some 0) Option.none (Option.some "112") true
      = PyResult.ok (CycleTrace.mk false false Option.none Option.none) :=
  run_cycle_failure_no_publish 0 Option.none (Option.some "112") true
    (Or.inr (by decide))

/-- Claim C1: after a failed cycle the loop body makes exactly one re-login
attempt before the sleep (visible in the event trace), but when that re-login
fails the `session` variable is overwritten with `None` — not kept at its
prior value — and the next iteration's cycle raises an `AttributeError`
(`session.post` on `None`) that no handler in the loop body catches, so the
process reaches the `except Exception` handler and exits with status 1 instead
of retrying. -/
theorem loop_failed_relogin_crash :
    (loop_iter (LoopState.mk (Option.some 0) 0) Option.none Option.none true 1
        (TransportResult.exn "ConnectionError")
      = PyResult.ok (LoopState.mk Option.none 1,
          [LoopEvent.cycleRun false, LoopEvent.reloginAttempt false,
           LoopEvent.sleep])) ∧
    (loop_iter (LoopState.mk Option.none 1) (Option.some "85")
        (Option.some "112") true 1
        (TransportResult.ok "https://cloud.enggenv.com/home.php")
      = PyResult.exn "AttributeError: NoneType object has no attribute post") := by
  decide

lemma snd_unique_of_keys_nodup {l : List (String × String)}
    (hn : (l.map Prod.fst).Nodup) {k e1 e2 : String}
    (h1 : (k, e1) ∈ l) (h2 : (k, e2) ∈ l) : e1 = e2 := by
  induction l with
  | nil => simp at h1
  | cons x xs ih =>
    simp only [List.map_cons, List.nodup_cons] at hn
    rcases List.mem_cons.mp h1 with h1 | h1 <;>
      rcases List.mem_cons.mp h2 with h2 | h2
    · rw [← h1] at h2
      exact (((Prod.mk.injEq k e2 k e1).mp h2).2).symm
    · exfalso
      exact hn.1 (List.mem_map.mpr ⟨(k, e2), h2, by rw [← h1]⟩)
    · exfalso
      exact hn.1 (List.mem_map.mpr ⟨(k, e1), h1, by rw [← h2]⟩)
    · exact ih hn.2 h1 h2

lemma env_keys_nodup : (env_keys.map Prod.fst).Nodup := by decide

/-- Claim C10: when a required environment variable is set to the empty
string, the `load_config` gate exits the process with status 1, yet the
reported `missing_keys` list names only keys whose variable is entirely unset
(`is None`) — the empty-string key itself is never listed. -/
theorem load_config_empty_string_not_listed (env : String → Option String)
    (k ev : String) (hk : (k, ev) ∈ env_keys) (he : env ev = Option.some "") :
    ∃ missing, load_config_gate env = Option.some (1, missing) ∧
      k ∉ missing ∧
      ∀ k' ∈ missing, ∃ ev', (k', ev') ∈ env_keys ∧ env ev' = Option.none := by
  have hmem : (k, Option.some "") ∈ config_str env := by
    unfold config_str
    exact List.mem_map.mpr ⟨(k, ev), hk, by simp [he]⟩
  have hall : (config_str env).all (fun kv => pyTruthy kv.2) = false := by
    rw [List.all_eq_false]
    exact ⟨(k, Option.some ""), hmem, by simp [pyTruthy]; rfl⟩
  refine ⟨((config_str env).filter (fun kv => kv.2.isNone)).map Prod.fst,
    by unfold load_config_gate; simp only [hall]; rfl, ?_, ?_⟩
  · intro hkin
    obtain ⟨⟨k1, v⟩, hfil, hfst⟩ := List.mem_map.mp hkin
    obtain ⟨hin, hnone⟩ := List.mem_filter.mp hfil
    obtain ⟨⟨k2, ev2⟩, hk2, heq⟩ := List.mem_map.mp hin
    simp only [Prod.mk.injEq] at heq
    simp only at hfst hnone
    obtain ⟨hq1, hq2⟩ := heq
    have hk2' : (k, ev2) ∈ env_keys := by
      rw [← hfst, ← hq1]
      exact hk2
    have hev : ev2 = ev := snd_unique_of_keys_nodup env_keys_nodup hk2' hk
    rw [hev, he] at hq2
    rw [← hq2] at hnone
    simp at hnone
  · intro k' hkin
    obtain ⟨⟨k1, v⟩, hfil, hfst⟩ := List.mem_map.mp hkin
    obtain ⟨hin, hnone⟩ := List.mem_filter.mp hfil
    obtain ⟨⟨k2, ev2⟩, hk2, heq⟩ := List.mem_map.mp hin
    simp only [Prod.mk.injEq] at heq
    simp only at hfst hnone
    obtain ⟨hq1, hq2⟩ := heq
    refine ⟨ev2, ?_, ?_⟩
    · rw [← hfst, ← hq1]
      exact hk2
    · rw [hq2]
      exact Option.isNone_iff_eq_none.mp hnone

/-- Claim C10 witness: `WEB_USERNAME` set to the empty string while every
other variable is set; the gate exits with status 1 and the reported list of
missing keys does not name `web_user`. -/
theorem load_config_empty_string_not_listed_witness :
    ∃ missing,
      load_config_gate (fun v => if v = "WEB_USERNAME" then Option.some ""
          else Option.some "x") = Option.some (1, missing) ∧
      "web_user" ∉ missing ∧
      ∀ k' ∈ missing, ∃ ev', (k', ev') ∈ env_keys ∧
        (fun v => if v = "WEB_USERNAME" then Option.some ""
          else Option.some "x") ev' = Option.none :=
  load_config_empty_string_not_listed
    (fun v => if v = "WEB_USERNAME" then Option.some "" else Option.some "x")
    "web_user" "WEB_USERNAME" (by decide) (by decide)

end EnggDev
